import Mathlib

/-!
Verification development for the multi-agent question-answering starter.

The repository has three source files:
* `agents.py` — `retry_with_backoff` (exponential-backoff retry wrapper),
  `analyze_question` (classifier), `answer_code_question` and
  `answer_generic_question` (the two handlers);
* `graph.py` — `create_graph` (routing state machine over the classifier
  decision token);
* `main.py` — `parse_response` (structured-response formatter).

The definitions below are a shallow embedding of those functions.  Remote
language-model calls are abstracted by parameters supplying the raw text the
call would have produced; exceptions are modelled by an explicit result type;
`time.sleep` calls are modelled by recording the requested delays in a list;
function invocations are recorded in trace lists where a claim is about which
calls happen.  Python string operations are modelled by executable functions
on the underlying character lists, so that every definition evaluates inside
the kernel.
-/

namespace MultiAgent

/-! ## Python string operations used by the source -/

/-- Whitespace characters recognised by Python `str.strip()` (the ASCII ones;
all inputs in this development are ASCII). -/
def isWS (c : Char) : Bool :=
  c = ' ' || c = '\t' || c = '\n' || c = '\r' || c = '\x0b' || c = '\x0c'

/-- Python `s.strip()`: remove leading and trailing whitespace. -/
def pyStrip (s : String) : String :=
  ⟨((s.data.dropWhile isWS).reverse.dropWhile isWS).reverse⟩

/-- Python `s.lower()` (ASCII case mapping). -/
def pyLower (s : String) : String :=
  ⟨s.data.map Char.toLower⟩

/-- Python `s.startswith(p)`. -/
def pyStartsWith (s p : String) : Bool :=
  p.data.isPrefixOf s.data

/-- Splitting a character list at every occurrence of a separator character;
empty pieces are kept, as Python `str.split(sep)` does. -/
def splitOnChar (sep : Char) : List Char → List (List Char)
  | [] => [[]]
  | c :: s =>
    match splitOnChar sep s with
    | [] => [[c]]
    | g :: gs => if c = sep then [] :: g :: gs else (c :: g) :: gs

/-- Python `s.split('\n')`. -/
def pySplitLines (s : String) : List String :=
  (splitOnChar '\n' s.data).map (fun l => ⟨l⟩)

/-- Left-to-right scan replacing every non-overlapping occurrence of `pat`
(which is non-empty at every use site) by `repl`; the fuel argument is the
length of the scanned list, so it never runs out. -/
def pyReplaceAux (pat repl : List Char) : Nat → List Char → List Char
  | _, [] => []
  | 0, s => s
  | fuel + 1, c :: s =>
    if pat ≠ [] ∧ pat.isPrefixOf (c :: s) then
      repl ++ pyReplaceAux pat repl fuel (List.drop pat.length (c :: s))
    else
      c :: pyReplaceAux pat repl fuel s

/-- Python `s.replace(pat, repl)` (replace all occurrences). -/
def pyReplace (s pat repl : String) : String :=
  ⟨pyReplaceAux pat.data repl.data s.data.length s.data⟩

/-- Python `s[1:]`. -/
def pyDropOne (s : String) : String :=
  ⟨s.data.drop 1⟩

/-! ## Backoff executor (src/agents.py, `retry_with_backoff`) -/

/-- Outcome of one invocation of the wrapped operation inside
`retry_with_backoff`: a successful return value, or one of the exception
classes distinguished by the source (`OverloadedError`, `AuthenticationError`,
any other `Exception`). -/
inductive CallResult (α : Type) where
  | ok (v : α)
  | overloaded
  | authError
  | otherError
  deriving DecidableEq

/-- Overall outcome of `retry_with_backoff`: a returned value, a re-raised
exception of one of the three classes, or `noResult` for the implicit `None`
returned when the `for` loop body never runs. -/
inductive RetryResult (α : Type) where
  | ok (v : α)
  | overloadRaised
  | authRaised
  | otherRaised
  | noResult
  deriving DecidableEq

/-- One loop iteration of `retry_with_backoff` (src/agents.py lines 41-55),
recursing on the number of remaining iterations of
`for attempt in range(max_retries)`.  `f` maps the 0-based attempt index to
that invocation's outcome.  Returns the overall result, the list of delays
passed to `time.sleep` (in order), and the list of attempt indices at which
`f` was invoked.  `attempt == max_retries - 1` in the source corresponds to
`remaining = 1` here, i.e. the recursion seeing zero further iterations. -/
def retryAux {α : Type} (f : Nat → CallResult α) (initial_delay : Int)
    (attempt : Nat) : Nat → RetryResult α × List Int × List Nat
  | 0 => (.noResult, [], [])
  | remaining + 1 =>
    match f attempt with
    | .ok v => (.ok v, [], [attempt])
    | .overloaded =>
      if remaining = 0 then
        (.overloadRaised, [], [attempt])
      else
        let d := initial_delay * 2 ^ attempt
        let rest := retryAux f initial_delay (attempt + 1) remaining
        (rest.1, d :: rest.2.1, attempt :: rest.2.2)
    | .authError => (.authRaised, [], [attempt])
    | .otherError => (.otherRaised, [], [attempt])

/-- `retry_with_backoff(func, max_retries=3, initial_delay=1)` from
src/agents.py.  `max_retries` is a Python `int`, so it is modelled as `Int`;
`range(max_retries)` is empty for non-positive values, hence the `Int.toNat`
fuel. -/
def retry_with_backoff {α : Type} (f : Nat → CallResult α)
    (max_retries : Int) (initial_delay : Int) :
    RetryResult α × List Int × List Nat :=
  retryAux f initial_delay 0 max_retries.toNat

/-! ## Response formatter (src/main.py, `parse_response`) -/

/-- The duck-typed raw model response consumed by `parse_response`.  Each
optional field models a Python attribute probed with `hasattr`/`getattr`
(absent attribute = `none`); `toStr` is the `str(response_text)` fallback used
when no `content` attribute exists.  Token usage is modelled as an association
list standing for the Python dict. -/
structure RawResponse where
  content? : Option String
  id? : Option String
  model? : Option String
  run_id? : Option String
  stop_reason? : Option String
  usage? : Option (List (String × Nat))
  toStr : String

/-- The `result["content"]` part built by `parse_response`. -/
structure Content where
  main_answer : String
  supporting_details : List String
  deriving DecidableEq

/-- The `result["metadata"]` part built by `parse_response`. -/
structure Metadata where
  response_id : String
  model : String
  run_id : String
  stop_reason : String
  token_usage : List (String × Nat)
  deriving DecidableEq

/-- The structured record returned by `parse_response`. -/
structure StructuredResponse where
  content : Content
  metadata : Metadata
  deriving DecidableEq

/-- The `current_section` variable of `parse_response`: `none` initially, then
the last section marker seen. -/
inductive Sect where
  | mainAnswer
  | supportingDetails
  deriving DecidableEq

/-- The `for line in lines` loop of `parse_response` (src/main.py lines
78-90): per-line strip, blank-line skip, and the marker-driven branches, with
`result["content"]` threaded as the accumulator. -/
def parseLines : List String → Option Sect → Content → Content
  | [], _, acc => acc
  | l :: ls, sec, acc =>
    let line := pyStrip l
    if line = "" then
      parseLines ls sec acc
    else if pyStartsWith line "MAIN_ANSWER:" then
      parseLines ls (some .mainAnswer)
        { acc with main_answer := pyStrip (pyReplace line "MAIN_ANSWER:" "") }
    else if pyStartsWith line "SUPPORTING_DETAILS:" then
      parseLines ls (some .supportingDetails) acc
    else if pyStartsWith line "-" ∧ sec = some .supportingDetails then
      parseLines ls sec
        { acc with supporting_details := acc.supporting_details ++ [pyStrip (pyDropOne line)] }
    else
      parseLines ls sec acc

/-- `parse_response(response_text)` from src/main.py lines 46-92: content
extraction (`content` attribute if present, else the textual rendering),
strip-and-split into lines, metadata read via `getattr` with empty defaults,
and the section-parsing loop. -/
def parse_response (r : RawResponse) : StructuredResponse :=
  let content := r.content?.getD r.toStr
  let lines := pySplitLines (pyStrip content)
  { content := parseLines lines none { main_answer := "", supporting_details := [] }
    metadata :=
      { response_id := r.id?.getD ""
        model := r.model?.getD ""
        run_id := r.run_id?.getD ""
        stop_reason := r.stop_reason?.getD ""
        token_usage := r.usage?.getD [] } }

/-- A raw response carrying only textual content, as produced by the graph's
`result["output"]` when only the `content` attribute matters. -/
def contentOnly (s : String) : RawResponse :=
  { content? := some s, id? := none, model? := none, run_id? := none,
    stop_reason? := none, usage? := none, toStr := s }

/-! ## Classifier, handlers and routing graph (src/agents.py, src/graph.py) -/

/-- The graph state of src/graph.py (`AgentState`): input question, optional
handler output, optional classifier decision (`none` before the channel is
written). -/
structure AgentState where
  input : String
  output : Option String
  decision : Option String
  deriving DecidableEq

/-- `analyze_question(state)` from src/agents.py lines 58-90, with the remote
call abstracted: `rawContent` is the text content the model call returned
(`response.content`).  The source computes
`decision = response.content.strip().lower()` and returns
`{"decision": decision, "input": state["input"]}`, which updates those state
channels. -/
def analyze_question (state : AgentState) (rawContent : String) : AgentState :=
  { state with decision := some (pyLower (pyStrip rawContent)) }

/-- `answer_code_question(state)` from src/agents.py lines 93-129, with the
remote call abstracted by `codeOut`, mapping the input question to the raw
response content.  The source returns `{"output": response}`. -/
def answer_code_question (codeOut : String → String) (state : AgentState) :
    AgentState :=
  { state with output := some (codeOut state.input) }

/-- `answer_generic_question(state)` from src/agents.py lines 132-167, remote
call abstracted by `genOut`. -/
def answer_generic_question (genOut : String → String) (state : AgentState) :
    AgentState :=
  { state with output := some (genOut state.input) }

/-- The conditional-edge mapping of `create_graph` (src/graph.py lines 45-52):
the dict `{"code": "code_agent", "general": "generic_agent"}` keyed by the
`decision` channel. -/
def routing_table : List (String × String) :=
  [("code", "code_agent"), ("general", "generic_agent")]

/-- Dict lookup of a decision token in `routing_table`; `none` is a lookup
miss (token outside the table's keys). -/
def route (decision : String) : Option String :=
  (routing_table.find? (fun p => p.1 == decision)).map (fun p => p.2)

/-- Modelled from the spec: one run of the compiled `StateGraph` built by
`create_graph` (src/graph.py lines 39-58).  The langgraph library that
executes the compiled graph is not part of the repository, so its execution
semantics follow the spec: entry point `analyze`, then the conditional edge
routes the `decision` channel through `routing_table` to exactly one handler
node, which then reaches the end; on a lookup miss the reference behaviour is
to terminate silently, invoking no handler and raising no failure (spec
sections 7 and 9).  Returns the final state and the trace of node names
invoked, in order. -/
def runGraph (classifierRaw : String) (codeOut genOut : String → String)
    (question : String) : AgentState × List String :=
  let s0 : AgentState := { input := question, output := none, decision := none }
  let s1 := analyze_question s0 classifierRaw
  match route (s1.decision.getD "") with
  | some "code_agent" => (answer_code_question codeOut s1, ["analyze", "code_agent"])
  | some "generic_agent" => (answer_generic_question genOut s1, ["analyze", "generic_agent"])
  | _ => (s1, ["analyze"])

/-- A raw response with no metadata attributes and marker-free content, used
as a concrete probe of the formatter's defaults. -/
def bareResponse : RawResponse :=
  { content? := some "hello\nworld", id? := none, model? := none,
    run_id? := none, stop_reason? := none, usage? := none, toStr := "" }

/-- A line whose stripped form begins with the `MAIN_ANSWER:` marker. -/
def isMainLine (l : String) : Bool :=
  pyStartsWith (pyStrip l) "MAIN_ANSWER:"

/-- The value `parse_response` stores for a MAIN_ANSWER line: the stripped
line with every occurrence of `"MAIN_ANSWER:"` removed, whitespace trimmed
(`line.replace("MAIN_ANSWER:", "").strip()` on the already-stripped line). -/
def mainValue (l : String) : String :=
  pyStrip (pyReplace (pyStrip l) "MAIN_ANSWER:" "")

/-- Stated from the claim's words, for comparison with the source: the
remainder of the stripped line after only the leading `MAIN_ANSWER:` prefix,
whitespace trimmed. -/
def mainValueLeadingOnly (l : String) : String :=
  pyStrip ⟨(pyStrip l).data.drop "MAIN_ANSWER:".data.length⟩

/-- The MAIN_ANSWER lines of an input, in order. -/
def mainLines (lines : List String) : List String :=
  lines.filter isMainLine

/-- A line whose stripped form begins with either section marker. -/
def recognized (l : String) : Bool :=
  pyStartsWith (pyStrip l) "MAIN_ANSWER:" ||
    pyStartsWith (pyStrip l) "SUPPORTING_DETAILS:"

/-! ## Sanity checks on concrete inputs -/

example : pyStrip "  Code\n" = "Code" := by decide
example : pyLower "GENERAL" = "general" := by decide
example : pySplitLines "a\n\nb" = ["a", "", "b"] := by decide
example : pyReplace "MAIN_ANSWER: x" "MAIN_ANSWER:" "" = " x" := by decide

example :
    retry_with_backoff (fun i => if i = 0 then .overloaded else .authError)
      5 1 = ((.authRaised : RetryResult Nat), [1], [0, 1]) := by
  decide

example :
    runGraph "  Code\n" (fun q => "C:" ++ q) (fun q => "G:" ++ q) "q1" =
      ({ input := "q1", output := some "C:q1", decision := some "code" },
        ["analyze", "code_agent"]) := by decide

example :
    runGraph "GENERAL" (fun q => "C:" ++ q) (fun q => "G:" ++ q) "q2" =
      ({ input := "q2", output := some "G:q2", decision := some "general" },
        ["analyze", "generic_agent"]) := by decide

/-! ## Helper lemmas about the formatter loop -/

/-- A string starting with a marker that the empty string does not start with
is non-empty. -/
theorem ne_empty_of_pyStartsWith {s p : String}
    (hp : pyStartsWith "" p = false) (h : pyStartsWith s p = true) :
    ¬ s = "" := by
  intro he
  rw [he, hp] at h
  exact Bool.noConfusion h

/-- Processing a MAIN_ANSWER line overwrites the main-answer field with that
line's value and switches the section to main answer. -/
theorem parseLines_main_step (l : String) (ls : List String) (sec : Option Sect)
    (acc : Content) (hl : isMainLine l = true) :
    parseLines (l :: ls) sec acc =
      parseLines ls (some .mainAnswer) { acc with main_answer := mainValue l } := by
  have hl' : pyStartsWith (pyStrip l) "MAIN_ANSWER:" = true := hl
  have h0 : ¬ pyStrip l = "" := ne_empty_of_pyStartsWith (by decide) hl'
  simp [parseLines, h0, hl', mainValue]

/-- Lines that are not MAIN_ANSWER lines never change the main-answer
field. -/
theorem parseLines_main_answer_const :
    ∀ (ls : List String) (sec : Option Sect) (acc : Content),
      (∀ l ∈ ls, isMainLine l = false) →
      (parseLines ls sec acc).main_answer = acc.main_answer := by
  intro ls
  induction ls with
  | nil => intro sec acc _; rfl
  | cons l ls ih =>
    intro sec acc h
    have hl : pyStartsWith (pyStrip l) "MAIN_ANSWER:" = false := h l (by simp)
    have hrest : ∀ x ∈ ls, isMainLine x = false :=
      fun x hx => h x (List.mem_cons_of_mem l hx)
    by_cases h0 : pyStrip l = ""
    · simp only [parseLines, h0, if_pos]
      exact ih sec acc hrest
    · by_cases h2 : pyStartsWith (pyStrip l) "SUPPORTING_DETAILS:" = true
      · simp only [parseLines, if_neg h0, hl, h2]
        simp only [Bool.false_eq_true, if_false, if_true]
        exact ih _ acc hrest
      · by_cases hd : pyStartsWith (pyStrip l) "-" = true ∧ sec = some Sect.supportingDetails
        · simp only [parseLines, if_neg h0, hl, h2, if_pos hd]
          simp only [Bool.false_eq_true, if_false]
          rw [ih _ _ hrest]
        · simp only [parseLines, if_neg h0, hl, h2, if_neg hd]
          simp only [Bool.false_eq_true, if_false]
          exact ih sec acc hrest

/-- When an input has no MAIN_ANSWER line among the remaining lines, and no
further line is recognised... (specialisation used below): with no recognised
marker at all and no section open, the loop leaves the accumulator
untouched. -/
theorem parseLines_unrecognized :
    ∀ (ls : List String) (acc : Content),
      (∀ l ∈ ls, recognized l = false) →
      parseLines ls none acc = acc := by
  intro ls
  induction ls with
  | nil => intro acc _; rfl
  | cons l ls ih =>
    intro acc h
    have hrec : recognized l = false := h l (by simp)
    have hl : pyStartsWith (pyStrip l) "MAIN_ANSWER:" = false := by
      have := hrec
      simp only [recognized, Bool.or_eq_false_iff] at this
      exact this.1
    have h2 : pyStartsWith (pyStrip l) "SUPPORTING_DETAILS:" = false := by
      have := hrec
      simp only [recognized, Bool.or_eq_false_iff] at this
      exact this.2
    have hrest : ∀ x ∈ ls, recognized x = false :=
      fun x hx => h x (List.mem_cons_of_mem l hx)
    have hd : ¬ (pyStartsWith (pyStrip l) "-" = true ∧
        (none : Option Sect) = some Sect.supportingDetails) := by
      rintro ⟨-, hc⟩
      exact Option.noConfusion hc
    by_cases h0 : pyStrip l = ""
    · simp only [parseLines, h0, if_pos]
      exact ih acc hrest
    · simp only [parseLines, if_neg h0, hl, h2, if_neg hd]
      simp only [Bool.false_eq_true, if_false]
      exact ih acc hrest

/-- The main-answer field of the parse is the value of the last MAIN_ANSWER
line. -/
theorem parseLines_main_last :
    ∀ (lines : List String) (sec : Option Sect) (acc : Content) (m : String),
      (mainLines lines).getLast? = some m →
      (parseLines lines sec acc).main_answer = mainValue m := by
  intro lines
  induction lines with
  | nil => intro sec acc m hm; simp [mainLines] at hm
  | cons l ls ih =>
    intro sec acc m hm
    by_cases hl : isMainLine l = true
    · rw [parseLines_main_step l ls sec acc hl]
      rcases hml : mainLines ls with _ | ⟨x, xs⟩
      · have hnone : ∀ x ∈ ls, isMainLine x = false := by
          intro x hx
          by_contra hc
          have hx' : x ∈ mainLines ls :=
            List.mem_filter.mpr ⟨hx, by simpa using hc⟩
          rw [hml] at hx'
          exact List.not_mem_nil x hx'
        have hm' : m = l := by
          simp only [mainLines, List.filter_cons, hl, if_pos] at hm
          rw [mainLines] at hml
          rw [hml] at hm
          simpa using hm.symm
        rw [parseLines_main_answer_const ls _ _ hnone, hm']
      · have hm' : (mainLines ls).getLast? = some m := by
          simp only [mainLines, List.filter_cons, hl, if_pos] at hm ⊢
          have hml' : List.filter isMainLine ls = x :: xs := hml
          rw [hml'] at hm ⊢
          simpa [List.getLast?_cons_cons] using hm
        exact ih _ _ m hm'
    · have hlf : pyStartsWith (pyStrip l) "MAIN_ANSWER:" = false := by
        simpa [isMainLine, Bool.not_eq_true] using hl
      have hm' : (mainLines ls).getLast? = some m := by
        simpa [mainLines, List.filter_cons, hlf, isMainLine] using hm
      by_cases h0 : pyStrip l = ""
      · simp only [parseLines, h0, if_pos]
        exact ih sec acc m hm'
      · by_cases h2 : pyStartsWith (pyStrip l) "SUPPORTING_DETAILS:" = true
        · simp only [parseLines, if_neg h0, hlf, h2]
          simp only [Bool.false_eq_true, if_false, if_true]
          exact ih _ acc m hm'
        · by_cases hd : pyStartsWith (pyStrip l) "-" = true ∧ sec = some Sect.supportingDetails
          · simp only [parseLines, if_neg h0, hlf, h2, if_pos hd]
            simp only [Bool.false_eq_true, if_false]
            exact ih sec _ m hm'
          · simp only [parseLines, if_neg h0, hlf, h2, if_neg hd]
            simp only [Bool.false_eq_true, if_false]
            exact ih sec acc m hm'

/-! ## Claim theorems -/

/-- C9: for every raw classifier output text, the decision returned by
`analyze_question` is exactly the raw text stripped of surrounding whitespace
and lower-cased — no validation against the two expected tokens — and the
input question is passed through unchanged. -/
theorem classifier_normalizes (state : AgentState) (raw : String) :
    analyze_question state raw =
      { input := state.input, output := state.output,
        decision := some (pyLower (pyStrip raw)) } := rfl

/-- C1 (evaluation at the failing input): on the classifier raw output
`"Banana\n"`, which normalizes to the token `"banana"` outside
`{code, general}`, one run of the graph invokes no handler and produces no
explicit failure of any kind — the run terminates silently after the
`analyze` node with an empty output channel, instead of raising the
Routing-Miss failure the claim requires. -/
theorem routing_miss_silent (codeOut genOut : String → String) (q : String) :
    runGraph "Banana\n" codeOut genOut q =
      ({ input := q, output := none, decision := some "banana" }, ["analyze"]) := rfl

/-- C8: for every question and classifier output, one run of the graph
invokes the classifier (`analyze` node) exactly once and at most one handler
at most once; it never invokes both handlers; and every run begins with the
classifier, so no path reaches a handler without it. -/
theorem router_single_dispatch (raw : String) (codeOut genOut : String → String)
    (q : String) :
    ((runGraph raw codeOut genOut q).2.head? = some "analyze") ∧
    (runGraph raw codeOut genOut q).2.count "analyze" = 1 ∧
    (runGraph raw codeOut genOut q).2.count "code_agent" ≤ 1 ∧
    (runGraph raw codeOut genOut q).2.count "generic_agent" ≤ 1 ∧
    ¬("code_agent" ∈ (runGraph raw codeOut genOut q).2 ∧
      "generic_agent" ∈ (runGraph raw codeOut genOut q).2) := by
  unfold runGraph
  dsimp only
  split <;> (dsimp only; decide)

/-- C2: with `max_retries = 3` and `initial_delay = 1`, transient overload on
attempts 1 and 2 followed by success on attempt 3 produces exactly the sleeps
`[1, 2]` (in that order), invokes the operation exactly on attempts `0, 1, 2`,
and returns the attempt-3 result; overload on all three attempts re-raises
the overload after attempt 3 with the same two sleeps (none after the last
attempt) and no further invocation. -/
theorem retry_backoff_timing (f : Nat → CallResult Nat) (v : Nat) :
    (f 0 = .overloaded → f 1 = .overloaded → f 2 = .ok v →
      retry_with_backoff f 3 1 = (.ok v, [1, 2], [0, 1, 2])) ∧
    (f 0 = .overloaded → f 1 = .overloaded → f 2 = .overloaded →
      retry_with_backoff f 3 1 = (.overloadRaised, [1, 2], [0, 1, 2])) := by
  constructor <;> intro h0 h1 h2 <;>
    simp [retry_with_backoff, retryAux, h0, h1, h2]

/-- Witness for `retry_backoff_timing` at two concrete operations. -/
theorem retry_backoff_timing_witness :
    retry_with_backoff (fun i => if i < 2 then .overloaded else .ok 7) 3 1 =
        ((.ok 7 : RetryResult Nat), [1, 2], [0, 1, 2]) ∧
      retry_with_backoff (fun _ => (CallResult.overloaded : CallResult Nat)) 3 1 =
        (.overloadRaised, [1, 2], [0, 1, 2]) :=
  ⟨(retry_backoff_timing (fun i => if i < 2 then .overloaded else .ok 7) 7).1
      rfl rfl rfl,
    (retry_backoff_timing (fun _ => CallResult.overloaded) 7).2 rfl rfl rfl⟩

/-- C10: invoked with a non-positive `max_retries`, the retry loop body never
runs: the wrapped operation is never invoked (empty call list), no sleep
happens, and the function falls off the loop returning Python's implicit
`None` — no result and no raised failure. -/
theorem retry_nonpositive_noop {α : Type} (f : Nat → CallResult α)
    (mr d : Int) (h : mr ≤ 0) :
    retry_with_backoff f mr d = (.noResult, [], []) := by
  unfold retry_with_backoff
  rw [Int.toNat_eq_zero.mpr h]
  rfl

/-- Witness for `retry_nonpositive_noop` at `max_retries = -2`. -/
theorem retry_nonpositive_noop_witness :
    (-2 : Int) ≤ 0 ∧
      retry_with_backoff (fun _ => CallResult.ok 0) (-2) 1 =
        (.noResult, [], []) :=
  ⟨by decide, retry_nonpositive_noop (fun _ => CallResult.ok 0) (-2) 1 (by decide)⟩

/-- If the first `k` attempts (starting at `attempt = a`, with more than `k`
iterations remaining) all hit transient overload, the retry loop reaches
attempt `a + k` having slept `d * 2 ^ i` for each `i` in `[a, a + k)` and
having invoked the operation at exactly those attempts, and behaves from
there like the loop started at `a + k`. -/
theorem retryAux_overload_run {α : Type} (f : Nat → CallResult α) (d : Int) :
    ∀ (k a r : Nat), k < r → (∀ i, i < k → f (a + i) = .overloaded) →
      retryAux f d a r =
        ((retryAux f d (a + k) (r - k)).1,
          (List.range' a k).map (fun i => d * 2 ^ i) ++ (retryAux f d (a + k) (r - k)).2.1,
          List.range' a k ++ (retryAux f d (a + k) (r - k)).2.2) := by
  intro k
  induction k with
  | zero => intro a r _ _; simp
  | succ k ih =>
    intro a r hkr hov
    obtain ⟨r', rfl⟩ : ∃ r', r = r' + 1 := ⟨r - 1, by omega⟩
    have ha : f a = .overloaded := by simpa using hov 0 (by omega)
    have hr' : ¬ r' = 0 := by omega
    have e1 : a + 1 + k = a + (k + 1) := by omega
    have e2 : r' - k = r' + 1 - (k + 1) := by omega
    have ihs := ih (a + 1) r' (by omega)
      (fun i hi => by
        have := hov (i + 1) (by omega)
        simpa [Nat.add_assoc, Nat.add_comm 1 i] using this)
    simp only [retryAux, ha, if_neg hr', ihs, List.range'_succ, List.map_cons,
      List.cons_append, e1, e2]

/-- C3: for every `max_retries`, if the first `k` attempts hit transient
overload and attempt `k + 1` (index `k`) raises an authentication failure,
`retry_with_backoff` re-raises it at once: the operation is invoked exactly
on attempts `0..k`, and the only sleeps are the `k` backoff sleeps that
preceded attempt `k` — none after the failure.  The same immediate
propagation holds when attempt `k` raises any failure that is neither
transient overload nor authentication. -/
theorem retry_fatal_immediate {α : Type} (f : Nat → CallResult α)
    (mr d : Int) (k : Nat) (hk : (k : Int) < mr)
    (hov : ∀ i, i < k → f i = .overloaded) :
    (f k = .authError →
      retry_with_backoff f mr d =
        (.authRaised, (List.range k).map (fun i => d * 2 ^ i), List.range (k + 1))) ∧
    (f k = .otherError →
      retry_with_backoff f mr d =
        (.otherRaised, (List.range k).map (fun i => d * 2 ^ i), List.range (k + 1))) := by
  have hk' : k < mr.toNat := Int.lt_toNat.mpr hk
  have hrun := retryAux_overload_run f d k 0 mr.toNat hk' (by simpa using hov)
  obtain ⟨r', hr'⟩ : ∃ r', mr.toNat - k = r' + 1 := ⟨mr.toNat - k - 1, by omega⟩
  constructor <;> intro hfk <;>
    (simp only [retry_with_backoff, hrun, Nat.zero_add, hr', retryAux, hfk];
      simp [List.range_eq_range', List.range'_concat])

/-- Witness for `retry_fatal_immediate`: authentication failure on attempt 3
after two overloads with `max_retries = 4`, and an unclassified failure on
attempt 2 after one overload with `max_retries = 3`. -/
theorem retry_fatal_immediate_witness :
    (retry_with_backoff (fun i => if i < 2 then .overloaded else (.authError : CallResult Nat)) 4 1 =
        (.authRaised, [1, 2], [0, 1, 2])) ∧
    (retry_with_backoff (fun i => if i < 1 then .overloaded else (.otherError : CallResult Nat)) 3 1 =
        (.otherRaised, [1], [0, 1])) := by
  constructor
  · have h := (retry_fatal_immediate
      (fun i => if i < 2 then .overloaded else (.authError : CallResult Nat))
      4 1 2 (by decide) (fun i hi => by interval_cases i <;> rfl)).1 rfl
    simpa using h
  · have h := (retry_fatal_immediate
      (fun i => if i < 1 then .overloaded else (.otherError : CallResult Nat))
      3 1 1 (by decide) (fun i hi => by interval_cases i; rfl)).2 rfl
    simpa using h

/-- C5: the round-trip input with one MAIN_ANSWER line and three detail lines
parses to main answer "Use a for loop" and the three details in input
order. -/
theorem formatter_round_trip :
    (parse_response (contentOnly
        "MAIN_ANSWER: Use a for loop\nSUPPORTING_DETAILS:\n- Initialize counter\n- Check condition\n- Increment")).content.main_answer
        = "Use a for loop" ∧
      (parse_response (contentOnly
        "MAIN_ANSWER: Use a for loop\nSUPPORTING_DETAILS:\n- Initialize counter\n- Check condition\n- Increment")).content.supporting_details
        = ["Initialize counter", "Check condition", "Increment"] := by
  constructor <;> decide

/-- C4 counterexample: on the line `"MAIN_ANSWER: A MAIN_ANSWER: B"` the
source's `line.replace("MAIN_ANSWER:", "")` removes every occurrence of the
marker, so the stored main answer (`"A  B"`) is not the remainder of the line
with only the leading prefix stripped (`"A MAIN_ANSWER: B"`). -/
theorem main_answer_not_leading_only :
    (parse_response (contentOnly "MAIN_ANSWER: A MAIN_ANSWER: B")).content.main_answer ≠
      mainValueLeadingOnly "MAIN_ANSWER: A MAIN_ANSWER: B" := by
  decide

/-- C4 (amended): every line whose stripped form begins with the literal
`MAIN_ANSWER:` overwrites the main-answer field with that line minus all
occurrences of the marker, whitespace trimmed, and switches the section to
main answer; with several such lines, the final main answer is the value of
the last one (no accumulation). -/
theorem main_answer_last_wins :
    (∀ (l : String) (ls : List String) (sec : Option Sect) (acc : Content),
      isMainLine l = true →
      parseLines (l :: ls) sec acc =
        parseLines ls (some .mainAnswer) { acc with main_answer := mainValue l }) ∧
    (∀ (lines : List String) (sec : Option Sect) (acc : Content) (m : String),
      (mainLines lines).getLast? = some m →
      (parseLines lines sec acc).main_answer = mainValue m) :=
  ⟨parseLines_main_step, parseLines_main_last⟩

/-- Witness for `main_answer_last_wins`: the step equation on a concrete
MAIN_ANSWER line, and last-wins on an input with two of them. -/
theorem main_answer_last_wins_witness :
    parseLines ["MAIN_ANSWER: A"] none { main_answer := "", supporting_details := [] } =
        parseLines [] (some .mainAnswer)
          { main_answer := mainValue "MAIN_ANSWER: A", supporting_details := [] } ∧
      (parseLines ["MAIN_ANSWER: A", "MAIN_ANSWER: B"] none
          { main_answer := "", supporting_details := [] }).main_answer =
        mainValue "MAIN_ANSWER: B" :=
  ⟨main_answer_last_wins.1 "MAIN_ANSWER: A" [] none
      { main_answer := "", supporting_details := [] } (by decide),
    main_answer_last_wins.2 ["MAIN_ANSWER: A", "MAIN_ANSWER: B"] none
      { main_answer := "", supporting_details := [] } "MAIN_ANSWER: B" (by decide)⟩

/-- C6: while the current section is supporting details, a line whose
stripped form begins with `-` (and with neither section marker) appends that
line minus its first character, whitespace trimmed, to the end of the detail
list (preserving input order); in any other section state such a line — like
any unrecognised line — contributes nothing; and the concrete input
`"- stray\nMAIN_ANSWER: X"` parses to main answer `"X"` with no details. -/
theorem detail_lines_in_section :
    (∀ (l : String) (ls : List String) (acc : Content),
      pyStartsWith (pyStrip l) "MAIN_ANSWER:" = false →
      pyStartsWith (pyStrip l) "SUPPORTING_DETAILS:" = false →
      pyStartsWith (pyStrip l) "-" = true →
      parseLines (l :: ls) (some .supportingDetails) acc =
        parseLines ls (some .supportingDetails)
          { acc with supporting_details :=
              acc.supporting_details ++ [pyStrip (pyDropOne (pyStrip l))] }) ∧
    (∀ (l : String) (ls : List String) (sec : Option Sect) (acc : Content),
      sec ≠ some Sect.supportingDetails →
      pyStartsWith (pyStrip l) "MAIN_ANSWER:" = false →
      pyStartsWith (pyStrip l) "SUPPORTING_DETAILS:" = false →
      parseLines (l :: ls) sec acc = parseLines ls sec acc) ∧
    ((parse_response (contentOnly "- stray\nMAIN_ANSWER: X")).content =
      { main_answer := "X", supporting_details := [] }) := by
  refine ⟨?_, ?_, by decide⟩
  · intro l ls acc h1 h2 h3
    have h0 : ¬ pyStrip l = "" := ne_empty_of_pyStartsWith (by decide) h3
    simp [parseLines, if_neg h0, h1, h2, h3]
  · intro l ls sec acc hsec h1 h2
    have hd : ¬ (pyStartsWith (pyStrip l) "-" = true ∧
        sec = some Sect.supportingDetails) := by
      rintro ⟨-, hc⟩
      exact hsec hc
    by_cases h0 : pyStrip l = ""
    · simp only [parseLines, h0, if_pos]
    · simp only [parseLines, if_neg h0, h1, h2, if_neg hd]
      simp only [Bool.false_eq_true, if_false]

/-- Witness for `detail_lines_in_section`: a dash line appended in the
supporting-details section, the same line ignored in the main-answer section,
and the concrete stray-dash input. -/
theorem detail_lines_in_section_witness :
    parseLines ["- a"] (some .supportingDetails)
        { main_answer := "", supporting_details := [] } =
      parseLines [] (some .supportingDetails)
        { main_answer := "", supporting_details := ["a"] } ∧
    parseLines ["- a"] (some .mainAnswer)
        { main_answer := "", supporting_details := [] } =
      parseLines [] (some .mainAnswer)
        { main_answer := "", supporting_details := [] } ∧
    (parse_response (contentOnly "- stray\nMAIN_ANSWER: X")).content =
      { main_answer := "X", supporting_details := [] } :=
  ⟨detail_lines_in_section.1 "- a" []
      { main_answer := "", supporting_details := [] } (by decide) (by decide) (by decide),
    detail_lines_in_section.2.1 "- a" [] (some .mainAnswer)
      { main_answer := "", supporting_details := [] } (by decide) (by decide) (by decide),
    detail_lines_in_section.2.2⟩

/-- C7: `parse_response` is a total function of the raw response (the
embedding is a plain function, so no input raises); every absent metadata
attribute yields the empty string (empty mapping for token usage), and
content in which no line carries a recognised section marker yields empty
content fields. -/
theorem formatter_total_defaults (r : RawResponse) :
    ((r.id? = none ∧ r.model? = none ∧ r.run_id? = none ∧
        r.stop_reason? = none ∧ r.usage? = none) →
      (parse_response r).metadata =
        { response_id := "", model := "", run_id := "", stop_reason := "",
          token_usage := [] }) ∧
    ((∀ l ∈ pySplitLines (pyStrip (r.content?.getD r.toStr)), recognized l = false) →
      (parse_response r).content = { main_answer := "", supporting_details := [] }) := by
  constructor
  · rintro ⟨h1, h2, h3, h4, h5⟩
    simp [parse_response, h1, h2, h3, h4, h5]
  · intro h
    simp only [parse_response]
    exact parseLines_unrecognized _ _ h

/-- Witness for `formatter_total_defaults`: a raw response with no metadata
attributes and marker-free content parses to all-empty fields. -/
theorem formatter_total_defaults_witness :
    (parse_response bareResponse).metadata =
        { response_id := "", model := "", run_id := "", stop_reason := "",
          token_usage := [] } ∧
      (parse_response bareResponse).content =
        { main_answer := "", supporting_details := [] } :=
  ⟨(formatter_total_defaults bareResponse).1 ⟨rfl, rfl, rfl, rfl, rfl⟩,
    (formatter_total_defaults bareResponse).2 (by decide)⟩

end MultiAgent
